import Mathlib

/-!
# MySQL-Connections: a shallow embedding of `connections.js`

The source file consists of four tutorial blocks that call a third-party MySQL
driver and log to the console.  The driver is external, so every driver call is
modelled by (1) an event appended to a trace and (2) an outcome supplied by a
`Driver` parameter.  JavaScript control flow (`try`/`catch`, `await`, `return`,
`if (x)` truthiness, property access on `null`/`undefined`) is modelled
explicitly.
-/

namespace MySQLConnections

/-! ## JavaScript values -/

/-- An object handed out by the driver (a connection or a pool): an identity and
the current value of its `threadId` property, when it has one. -/
structure Handle where
  id : Nat
  threadId : Option Int
  deriving DecidableEq, Repr

/-- The JavaScript values that can flow through the four blocks. -/
inductive JsVal where
  | undefined
  | null
  | bool (b : Bool)
  | num (n : Int)
  | str (s : String)
  | error (name : String)
  | obj (h : Handle)
  deriving DecidableEq, Repr

/-- JavaScript truthiness, as tested by `if (err)` and `if (db)`. -/
def JsVal.truthy : JsVal → Bool
  | .undefined => false
  | .null => false
  | .bool b => b
  | .num n => n != 0
  | .str s => s != ""
  | .error _ => true
  | .obj _ => true

/-- Whether a value is `null` or `undefined` (property access on it throws). -/
def JsVal.nullish : JsVal → Bool
  | .undefined => true
  | .null => true
  | _ => false

/-- The `TypeError` raised by the runtime. -/
def typeError : JsVal := .error "TypeError"

/-- The `ReferenceError` raised by the runtime for an unbound identifier. -/
def referenceError : JsVal := .error "ReferenceError"

/-! ## Driver configuration objects -/

/-- The object literal passed to `createConnection` / `createPool`. -/
structure Config where
  host : String
  user : String
  password : String
  database : String
  connectionLimit : Option Nat
  deriving DecidableEq, Repr

/-! ## Observable events -/

/-- What a run does to the outside world, in order. -/
inductive Event where
  | createConnection (cfg : Config)
  | createPool (cfg : Config)
  | connect (receiver : JsVal)
  | getConnection (receiver : JsVal)
  | execute (receiver : JsVal) (sql : String)
  | release (receiver : JsVal)
  | invoke (fn : String) (args : List JsVal)
  | log (text : String) (arg : JsVal)
  deriving DecidableEq, Repr

def Event.isCreateConnection : Event → Bool
  | .createConnection _ => true
  | _ => false

def Event.isCreatePool : Event → Bool
  | .createPool _ => true
  | _ => false

def Event.isConnect : Event → Bool
  | .connect _ => true
  | _ => false

def Event.isGetConnection : Event → Bool
  | .getConnection _ => true
  | _ => false

def Event.isExecute : Event → Bool
  | .execute _ _ => true
  | _ => false

def Event.isRelease : Event → Bool
  | .release _ => true
  | _ => false

def Event.isLog : Event → Bool
  | .log _ _ => true
  | _ => false

/-- A call of the function `queryDatabase` of this file. -/
def Event.isInvokeQuery : Event → Bool
  | .invoke fn _ => fn == "queryDatabase"
  | _ => false

/-- A console message that starts with the given text. -/
def Event.isLogOf (text : String) : Event → Bool
  | .log t _ => t == text
  | _ => false

/-! ## Runs: a trace plus a completion (normal value or thrown value) -/

/-- The result of running a piece of code to completion: the events it caused and
either the value it returned (`ok`) or the value it threw (`error`).  For an
`async` function `ok v` is a promise fulfilled with `v` and `error e` a promise
rejected with `e`. -/
structure Run (α : Type) where
  trace : List Event
  res : Except JsVal α

def Run.pure {α : Type} (a : α) : Run α := ⟨[], .ok a⟩

def Run.bind {α β : Type} (m : Run α) (f : α → Run β) : Run β :=
  match m.res with
  | .ok a => ⟨m.trace ++ (f a).trace, (f a).res⟩
  | .error e => ⟨m.trace, .error e⟩

instance : Monad Run where
  pure := Run.pure
  bind := Run.bind

/-- Record one event. -/
def emit (e : Event) : Run Unit := ⟨[e], .ok ()⟩

/-- The statement `throw e`. -/
def throwJs {α : Type} (e : JsVal) : Run α := ⟨[], .error e⟩

/-- The statement `try { body } catch (err) { handler err }`. -/
def tryCatch {α : Type} (body : Run α) (handler : JsVal → Run α) : Run α :=
  match body.res with
  | .ok a => ⟨body.trace, .ok a⟩
  | .error e => ⟨body.trace ++ (handler e).trace, (handler e).res⟩

/-- How a driver call that returns a promise ends.  A call that throws
synchronously inside an `async` function behaves like `rejected`. -/
inductive Outcome where
  | resolved (v : JsVal)
  | rejected (e : JsVal)
  deriving DecidableEq, Repr

/-- The expression `await p`. -/
def await (o : Outcome) : Run JsVal :=
  match o with
  | .resolved v => Run.pure v
  | .rejected e => throwJs e

/-- `console.log(text, arg)`. -/
def consoleLog (text : String) (arg : JsVal) : Run Unit := emit (.log text arg)

/-- The behaviour of the external driver, as far as the blocks observe it. -/
structure Driver where
  /-- Outcome of `mysql.createConnection(cfg)` of `mysql2/promise`. -/
  createConnection : Config → Outcome
  /-- Outcome of `receiver.execute(sql)`. -/
  execute : JsVal → String → Outcome
  /-- Outcome of `receiver.release()`: `none` when it returns, `some e` when it
  throws `e`. -/
  release : JsVal → Option JsVal

/-- The value of the property `threadId` of a value that is neither `null` nor
`undefined`: primitives and objects without the property give `undefined`. -/
def JsVal.threadIdOf : JsVal → JsVal
  | .obj h =>
    match h.threadId with
    | some t => .num t
    | none => .undefined
  | _ => .undefined

/-- The expression `v.threadId`: a `TypeError` on `null` and `undefined`. -/
def getThreadId (v : JsVal) : Run JsVal :=
  if v.nullish then throwJs typeError else Run.pure v.threadIdOf

/-- The expression `mysql.createConnection(cfg)` of the promise API, awaited. -/
def callCreateConnection (d : Driver) (cfg : Config) : Run JsVal := do
  emit (.createConnection cfg)
  await (d.createConnection cfg)

/-- The expression `await receiver.execute(sql)`.  Only an object can carry the
method; on anything else the call itself throws a `TypeError`.  On an object the
event records the call and the driver decides how it ends (including a rejection
when that object has no working `execute`). -/
def callExecute (d : Driver) (receiver : JsVal) (sql : String) : Run JsVal :=
  match receiver with
  | .obj h => do
    emit (.execute (.obj h) sql)
    await (d.execute (.obj h) sql)
  | _ => throwJs typeError

/-- The statement `receiver.release()`. -/
def callRelease (d : Driver) (receiver : JsVal) : Run Unit :=
  match receiver with
  | .obj h => do
    emit (.release (.obj h))
    match d.release (.obj h) with
    | none => Run.pure ()
    | some e => throwJs e
  | _ => throwJs typeError

/-- Reading a free identifier: `none` when no binding is in scope. -/
def readIdent (binding : Option JsVal) : Run JsVal :=
  match binding with
  | some v => Run.pure v
  | none => throwJs referenceError

def failConnectMsg : String :=
  "Uh-oh trouble coming from Back-end could not connect to MySQL: "

def failQueryMsg : String :=
  "Uh-oh trouble coming from Back-end could not query MySQL: "

def greetingMsg : String := "Greetings from the back-end!"

/-! ## Block 1: a single callback-style connection (lines 4-21) -/

namespace Block1

def config : Config :=
  { host := "localhost", user := "root", password := "password",
    database := "my_db", connectionLimit := none }

/-- The arrow function passed to `db.connect`.  `db` is the module-level constant
holding the object returned by `mysql.createConnection`. -/
def connectCallback (db : Handle) (err : JsVal) : Run Unit :=
  if err.truthy then do
    consoleLog failConnectMsg err
    Run.pure ()
  else do
    let t ← getThreadId (.obj db)
    consoleLog greetingMsg t

/-- The driver invoking the callback, once per delivery. -/
def deliver (db : Handle) : List JsVal → Run Unit
  | [] => Run.pure ()
  | err :: rest => do
    connectCallback db err
    deliver db rest

/-- The top-level statements of the block, followed by the callback invocations
the driver makes with the given `err` arguments. -/
def script (db : Handle) (deliveries : List JsVal) : Run Unit := do
  emit (.createConnection config)
  emit (.connect (.obj db))
  deliver db deliveries

end Block1

/-! ## Block 2: a callback-style pool (lines 27-45) -/

namespace Block2

def config : Config :=
  { host := "localhost", user := "root", password := "password",
    database := "my_db", connectionLimit := some 10 }

/-- The arrow function passed to `pool.getConnection`. -/
def getConnectionCallback (err connection : JsVal) : Run Unit :=
  if err.truthy then do
    consoleLog failConnectMsg err
    Run.pure ()
  else do
    let t ← getThreadId connection
    consoleLog greetingMsg t

/-- The driver invoking the callback, once per delivery `(err, connection)`. -/
def deliver : List (JsVal × JsVal) → Run Unit
  | [] => Run.pure ()
  | (err, connection) :: rest => do
    getConnectionCallback err connection
    deliver rest

/-- The top-level statements of the block, followed by the callback invocations
the driver makes. -/
def script (pool : Handle) (deliveries : List (JsVal × JsVal)) : Run Unit := do
  emit (.createPool config)
  emit (.getConnection (.obj pool))
  deliver deliveries

end Block2

/-! ## Block 3: promise-style single connection (lines 48-86) -/

namespace Block3

def config : Config :=
  { host := "localhost", user := "root", password := "password",
    database := "my_db", connectionLimit := none }

def sql : String := "SELECT * FROM your_table"

/-- Lines 50-65. -/
def connectToDatabase (d : Driver) : Run JsVal :=
  tryCatch
    (do
      let db ← callCreateConnection d config
      let t ← getThreadId db
      consoleLog greetingMsg t
      Run.pure db)
    (fun err => do
      consoleLog failConnectMsg err
      Run.pure .null)

/-- Lines 67-76.  The function declares no parameter, so the arguments of a call
are ignored and the identifier `db` in its body is looked up in the enclosing
(module) scope: `moduleDb` is that binding, `none` when there is none. -/
def queryDatabase (d : Driver) (moduleDb : Option JsVal) (_args : List JsVal) :
    Run JsVal :=
  tryCatch
    (do
      let db ← readIdent moduleDb
      let result ← callExecute d db sql
      consoleLog "Query result: " result
      Run.pure result)
    (fun err => do
      consoleLog failQueryMsg err
      Run.pure .null)

/-- Lines 78-84. -/
def main (d : Driver) (moduleDb : Option JsVal) : Run JsVal := do
  let db ← connectToDatabase d
  if db.truthy then do
    emit (.invoke "queryDatabase" [db])
    let result ← queryDatabase d moduleDb [db]
    consoleLog "Query result: " result
    Run.pure .undefined
  else
    Run.pure .undefined

end Block3

/-! ## Block 4: promise-style connection with `release` (lines 89-105) -/

namespace Block4

def config : Config :=
  { host := "your_host", user := "your_user", password := "your_password",
    database := "your_database", connectionLimit := none }

def sql : String := "SELECT * FROM your_table"

/-- Lines 91-103. -/
def queryDatabase (d : Driver) : Run JsVal := do
  let connection ← callCreateConnection d config
  let result ← callExecute d connection sql
  consoleLog "Results:" result
  callRelease d connection
  Run.pure .undefined

end Block4

/-! ## The pool behind `createPool`

The pool object of block 2 is implemented by the external driver.  Its
acquire/release mechanism is modelled from section 4.2 of the specification as a
transition system whose steps are the critical sections of the Pool Manager. -/

/-- Modelled from the spec: the Pool Manager state of sections 3 and 4.2, whose
implementation (the driver behind `mysql.createPool`) is not part of the source
file.  Connections are identified by numbers. -/
structure Pool where
  /-- The configured limit (`maxSize`, the `connectionLimit` option). -/
  maxSize : Nat
  /-- Idle connections, most recently idle first. -/
  idle : List Nat
  /-- Connections handed to callers. -/
  inUse : List Nat
  /-- Callers for which `open` is in flight (the Connecting state). -/
  connecting : List Nat
  /-- Waiter queue, oldest first. -/
  waiters : List Nat
  /-- The identity the next created connection gets. -/
  nextId : Nat
  deriving DecidableEq, Repr

/-- Modelled from the spec: the current total count of section 3,
Idle + InUse + Connecting. -/
def Pool.total (p : Pool) : Nat :=
  p.idle.length + p.inUse.length + p.connecting.length

/-- Modelled from the spec: the pool that `createPool(cfg)` constructs, empty and
with `maxSize` taken from `connectionLimit` (default 10, section 6). -/
def Pool.create (cfg : Config) : Pool :=
  { maxSize := cfg.connectionLimit.getD 10, idle := [], inUse := [],
    connecting := [], waiters := [], nextId := 0 }

/-- Modelled from the spec: the steps of the Pool Manager (section 4.2).
`acquire caller dead` is a call of acquire in which the idle connections listed
in `dead` fail their health check; `openDone caller ok` is the completion of the
`open` started for `caller`; `release conn broken` is a call of release;
`timeout caller` is the deadline of a queued waiter elapsing.  Shutdown and idle
eviction, which only remove connections, are left out. -/
inductive PoolEvent where
  | acquire (caller : Nat) (dead : List Nat)
  | openDone (caller : Nat) (ok : Bool)
  | release (conn : Nat) (broken : Bool)
  | timeout (caller : Nat)
  deriving DecidableEq, Repr

/-- Modelled from the spec: step 1 of acquire.  Pops idle connections, most
recently idle first, discarding those that fail the health check, until one
passes.  Returns the connection found (if any) and the remaining idle list. -/
def takeHealthy (dead : List Nat) : List Nat → Option Nat × List Nat
  | [] => (none, [])
  | c :: rest => if c ∈ dead then takeHealthy dead rest else (some c, rest)

/-- Modelled from the spec: acquire (section 4.2, steps 1 to 3). -/
def Pool.acquire (p : Pool) (caller : Nat) (dead : List Nat) : Pool :=
  match takeHealthy dead p.idle with
  | (some c, rest) => { p with idle := rest, inUse := c :: p.inUse }
  | (none, rest) =>
    if rest.length + p.inUse.length + p.connecting.length < p.maxSize then
      { p with idle := rest, connecting := caller :: p.connecting }
    else
      { p with idle := rest, waiters := p.waiters ++ [caller] }

/-- Modelled from the spec: completion of `open` for a caller in step 2 of
acquire.  On success the new connection is handed to the caller; on failure the
caller gets `ConnectError` and the slot is given back. -/
def Pool.openDone (p : Pool) (caller : Nat) (ok : Bool) : Pool :=
  if caller ∈ p.connecting then
    if ok then
      { p with connecting := p.connecting.erase caller,
               inUse := p.nextId :: p.inUse, nextId := p.nextId + 1 }
    else
      { p with connecting := p.connecting.erase caller }
  else p

/-- Modelled from the spec: release (section 4.2).  A broken connection is
destroyed and a replacement is opened for the first waiter; a healthy one is
handed to the first waiter, or else becomes idle.  Releasing a connection that is
not in use changes nothing. -/
def Pool.release (p : Pool) (conn : Nat) (broken : Bool) : Pool :=
  if conn ∈ p.inUse then
    if broken then
      match p.waiters with
      | w :: ws =>
        if p.idle.length + (p.inUse.erase conn).length + p.connecting.length
            < p.maxSize then
          { p with inUse := p.inUse.erase conn, waiters := ws,
                   connecting := w :: p.connecting }
        else
          { p with inUse := p.inUse.erase conn }
      | [] => { p with inUse := p.inUse.erase conn }
    else
      match p.waiters with
      | _ :: ws => { p with waiters := ws }
      | [] => { p with inUse := p.inUse.erase conn, idle := conn :: p.idle }
  else p

/-- Modelled from the spec: a queued waiter whose deadline elapses is removed
from the queue. -/
def Pool.timeout (p : Pool) (caller : Nat) : Pool :=
  { p with waiters := p.waiters.erase caller }

/-- Modelled from the spec: one step of the Pool Manager. -/
def Pool.step (p : Pool) : PoolEvent → Pool
  | .acquire caller dead => p.acquire caller dead
  | .openDone caller ok => p.openDone caller ok
  | .release conn broken => p.release conn broken
  | .timeout caller => p.timeout caller

/-- Modelled from the spec: a sequence of steps, in the order in which their
critical sections run. -/
def Pool.run (p : Pool) (evs : List PoolEvent) : Pool :=
  evs.foldl Pool.step p

/-! ## Concrete drivers and handles used to evaluate the blocks -/

/-- A connection object with thread id 7. -/
def conn7 : Handle := { id := 2, threadId := some 7 }

/-- The connection object of block 1. -/
def blockOneDb : Handle := { id := 1, threadId := some 3 }

/-- A driver for which every call succeeds. -/
def okDriver : Driver :=
  { createConnection := fun _ => .resolved (.obj conn7),
    execute := fun _ _ => .resolved (.str "rows"),
    release := fun _ => none }

/-- A driver that cannot connect. -/
def refusingDriver : Driver :=
  { createConnection := fun _ => .rejected (.error "ECONNREFUSED"),
    execute := fun _ _ => .resolved (.str "rows"),
    release := fun _ => none }

/-- A driver that connects but whose queries fail. -/
def failingQueryDriver : Driver :=
  { createConnection := fun _ => .resolved (.obj conn7),
    execute := fun _ _ => .rejected (.error "ER_NO_SUCH_TABLE"),
    release := fun _ => none }

/-! ## Characterisations used by several proofs -/

theorem connectToDatabase_resolved (d : Driver) (v : JsVal)
    (h : d.createConnection Block3.config = .resolved v) :
    Block3.connectToDatabase d =
      if v.nullish then
        ⟨[.createConnection Block3.config, .log failConnectMsg typeError], .ok .null⟩
      else
        ⟨[.createConnection Block3.config, .log greetingMsg v.threadIdOf], .ok v⟩ := by
  cases v <;>
    simp [Block3.connectToDatabase, tryCatch, callCreateConnection, bind, Run.bind, emit,
      await, Run.pure, throwJs, getThreadId, consoleLog, h, JsVal.nullish]

theorem connectToDatabase_rejected (d : Driver) (e : JsVal)
    (h : d.createConnection Block3.config = .rejected e) :
    Block3.connectToDatabase d =
      ⟨[.createConnection Block3.config, .log failConnectMsg e], .ok .null⟩ := by
  simp [Block3.connectToDatabase, tryCatch, callCreateConnection, bind, Run.bind, emit,
    await, Run.pure, throwJs, consoleLog, h]

theorem main_of_null (d : Driver) (moduleDb : Option JsVal)
    (h : (Block3.connectToDatabase d).res = .ok .null) :
    Block3.main d moduleDb = ⟨(Block3.connectToDatabase d).trace, .ok .undefined⟩ := by
  simp [Block3.main, bind, Run.bind, h, JsVal.truthy, Run.pure]

theorem block1_deliver_no_connect (db : Handle) (deliveries : List JsVal) :
    (Block1.deliver db deliveries).trace.countP Event.isConnect = 0 := by
  induction deliveries with
  | nil => simp [Block1.deliver, Run.pure]
  | cons err rest ih =>
    cases ht : err.truthy <;>
      simp [Block1.deliver, Block1.connectCallback, bind, Run.bind, ht, consoleLog, emit,
        Run.pure, getThreadId, JsVal.nullish, Event.isConnect, ih]

theorem block2_deliver_no_getConnection (deliveries : List (JsVal × JsVal)) :
    (Block2.deliver deliveries).trace.countP Event.isGetConnection = 0 := by
  induction deliveries with
  | nil => simp [Block2.deliver, Run.pure]
  | cons p rest ih =>
    obtain ⟨err, connection⟩ := p
    cases ht : err.truthy <;> cases hn : connection.nullish <;>
      simp [Block2.deliver, Block2.getConnectionCallback, bind, Run.bind, ht, hn, consoleLog,
        emit, Run.pure, getThreadId, throwJs, Event.isGetConnection, ih]

/-! ## Block 3: `connectToDatabase`, `queryDatabase`, `main` -/

/-- Claim C1: `connectToDatabase` never throws or rejects.  Whatever the driver
call `mysql.createConnection` does, the function returns a value; when the driver
resolves to a connection object `c` the returned value is exactly `c`, and when
the driver rejects (or throws) with any error the returned value is `null`. -/
theorem connectToDatabase_returns_connection_or_null (d : Driver) :
    (∃ v, (Block3.connectToDatabase d).res = .ok v) ∧
    (∀ c : Handle, d.createConnection Block3.config = .resolved (.obj c) →
      (Block3.connectToDatabase d).res = .ok (.obj c)) ∧
    (∀ e : JsVal, d.createConnection Block3.config = .rejected e →
      (Block3.connectToDatabase d).res = .ok .null) := by
  refine ⟨?_, ?_, ?_⟩
  · cases h : d.createConnection Block3.config with
    | resolved v =>
      rw [connectToDatabase_resolved d v h]
      cases v.nullish <;> simp
    | rejected e =>
      rw [connectToDatabase_rejected d e h]
      simp
  · intro c h
    rw [connectToDatabase_resolved d (.obj c) h]
    simp [JsVal.nullish]
  · intro e h
    rw [connectToDatabase_rejected d e h]

/-- Witness for C1 at a driver that resolves to the connection `conn7` and at a
driver that rejects with `ECONNREFUSED`. -/
theorem connectToDatabase_returns_connection_or_null_witness :
    okDriver.createConnection Block3.config = .resolved (.obj conn7) ∧
    (Block3.connectToDatabase okDriver).res = .ok (.obj conn7) ∧
    refusingDriver.createConnection Block3.config = .rejected (.error "ECONNREFUSED") ∧
    (Block3.connectToDatabase refusingDriver).res = .ok .null :=
  ⟨rfl, (connectToDatabase_returns_connection_or_null okDriver).2.1 conn7 rfl, rfl,
    (connectToDatabase_returns_connection_or_null refusingDriver).2.2
      (.error "ECONNREFUSED") rfl⟩

/-- Claim C5: there is no retry.  In every run of `connectToDatabase`, whether the
driver connects or fails, `mysql.createConnection` is called exactly once; the
first block calls `db.connect` exactly once and the second block calls
`pool.getConnection` exactly once, whatever arguments the driver passes to the
callback and however often it invokes it. -/
theorem no_retry :
    (∀ d : Driver,
      (Block3.connectToDatabase d).trace.countP Event.isCreateConnection = 1) ∧
    (∀ (db : Handle) (deliveries : List JsVal),
      (Block1.script db deliveries).trace.countP Event.isConnect = 1) ∧
    (∀ (pool : Handle) (deliveries : List (JsVal × JsVal)),
      (Block2.script pool deliveries).trace.countP Event.isGetConnection = 1) := by
  refine ⟨?_, ?_, ?_⟩
  · intro d
    cases h : d.createConnection Block3.config with
    | resolved v =>
      rw [connectToDatabase_resolved d v h]
      cases v.nullish <;> simp [Event.isCreateConnection]
    | rejected e =>
      rw [connectToDatabase_rejected d e h]
      simp [Event.isCreateConnection]
  · intro db deliveries
    have h := block1_deliver_no_connect db deliveries
    simp [Block1.script, bind, Run.bind, emit, Event.isConnect, List.countP_cons, h]
  · intro pool deliveries
    have h := block2_deliver_no_getConnection deliveries
    simp [Block2.script, bind, Run.bind, emit, Event.isGetConnection, List.countP_cons, h]

/-- Counterexample for C7 as stated: the callback of block 2 invoked with
`(null, undefined)`.  `err` is falsy, so line 42 evaluates `connection.threadId`
on `undefined`, which throws a `TypeError` before `console.log` runs: no message
is logged at all, so it is not the case that exactly one message (the greeting)
is logged. -/
theorem getConnectionCallback_without_connection_logs_nothing :
    JsVal.null.truthy = false ∧
    (Block2.getConnectionCallback .null .undefined).trace = [] ∧
    (Block2.getConnectionCallback .null .undefined).res = .error typeError ∧
    (Block2.getConnectionCallback .null .undefined).trace.countP Event.isLog ≠ 1 ∧
    (Block2.getConnectionCallback .null .undefined).trace ≠
      [if JsVal.null.truthy then Event.log failConnectMsg .null
       else Event.log greetingMsg JsVal.undefined.threadIdOf] :=
  ⟨rfl, rfl, rfl, by decide, by decide⟩

/-- Claim C7, amended: every invocation of the callback of block 1 logs exactly
one console message, the failure message together with `err` when `err` is
truthy and otherwise the greeting together with `db.threadId`.  Every invocation
of the callback of block 2 in which `err` is truthy, or `connection` is neither
`null` nor `undefined`, logs exactly one console message, the failure message
together with `err` when `err` is truthy and otherwise the greeting together with
`connection.threadId`.  In every invocation of either callback, without any
condition, at most one message is logged, so the two messages are never both
logged. -/
theorem callbacks_log_exactly_one_message :
    (∀ (db : Handle) (err : JsVal),
      (Block1.connectCallback db err).trace =
        [if err.truthy then Event.log failConnectMsg err
         else Event.log greetingMsg (JsVal.obj db).threadIdOf]) ∧
    (∀ err connection : JsVal,
      (err.truthy = false → connection.nullish = false) →
      (Block2.getConnectionCallback err connection).trace =
        [if err.truthy then Event.log failConnectMsg err
         else Event.log greetingMsg connection.threadIdOf]) ∧
    (∀ err connection : JsVal,
      (Block2.getConnectionCallback err connection).trace.length ≤ 1) := by
  refine ⟨?_, ?_, ?_⟩
  · intro db err
    cases ht : err.truthy <;>
      simp [Block1.connectCallback, bind, Run.bind, ht, consoleLog, emit, Run.pure,
        getThreadId, JsVal.nullish]
  · intro err connection h
    cases ht : err.truthy
    · have hn := h ht
      simp [Block2.getConnectionCallback, bind, Run.bind, ht, hn, consoleLog, emit, Run.pure,
        getThreadId]
    · simp [Block2.getConnectionCallback, bind, Run.bind, ht, consoleLog, emit, Run.pure]
  · intro err connection
    cases ht : err.truthy <;> cases hn : connection.nullish <;>
      simp [Block2.getConnectionCallback, bind, Run.bind, ht, hn, consoleLog, emit, Run.pure,
        getThreadId, throwJs]

/-- Witness for C7, amended: the callback of block 2 invoked with `(null, conn7)`
and with `(error, undefined)`; both inputs satisfy the condition. -/
theorem callbacks_log_exactly_one_message_witness :
    (JsVal.null.truthy = false → (JsVal.obj conn7).nullish = false) ∧
    (Block2.getConnectionCallback .null (.obj conn7)).trace =
      [Event.log greetingMsg (.num 7)] ∧
    (JsVal.error "ECONNREFUSED").truthy = true ∧
    (Block2.getConnectionCallback (.error "ECONNREFUSED") .undefined).trace =
      [Event.log failConnectMsg (.error "ECONNREFUSED")] :=
  ⟨fun _ => rfl,
    callbacks_log_exactly_one_message.2.1 .null (.obj conn7) (fun _ => rfl),
    rfl,
    callbacks_log_exactly_one_message.2.1 (.error "ECONNREFUSED") .undefined
      (fun h => absurd h (by decide))⟩

/-- Claim C9: when `connectToDatabase` returns `null`, `main` calls neither
`queryDatabase` nor `execute`, logs no query result, and completes normally
(its promise is fulfilled with `undefined`). -/
theorem main_skips_query_when_connection_failed (d : Driver) (moduleDb : Option JsVal)
    (h : (Block3.connectToDatabase d).res = .ok .null) :
    (Block3.main d moduleDb).trace.countP Event.isInvokeQuery = 0 ∧
    (Block3.main d moduleDb).trace.countP Event.isExecute = 0 ∧
    (Block3.main d moduleDb).trace.countP (Event.isLogOf "Query result: ") = 0 ∧
    (Block3.main d moduleDb).res = .ok .undefined := by
  rw [main_of_null d moduleDb h]
  cases hc : d.createConnection Block3.config with
  | resolved v =>
    rw [connectToDatabase_resolved d v hc]
    cases v.nullish <;>
      simp [Event.isInvokeQuery, Event.isExecute, Event.isLogOf, failConnectMsg, greetingMsg]
  | rejected e =>
    rw [connectToDatabase_rejected d e hc]
    simp [Event.isInvokeQuery, Event.isExecute, Event.isLogOf, failConnectMsg]

/-- Witness for C9 at a driver that cannot connect. -/
theorem main_skips_query_when_connection_failed_witness :
    (Block3.connectToDatabase refusingDriver).res = .ok .null ∧
    (Block3.main refusingDriver none).trace.countP Event.isInvokeQuery = 0 ∧
    (Block3.main refusingDriver none).trace.countP Event.isExecute = 0 ∧
    (Block3.main refusingDriver none).trace.countP (Event.isLogOf "Query result: ") = 0 ∧
    (Block3.main refusingDriver none).res = .ok .undefined :=
  ⟨rfl, main_skips_query_when_connection_failed refusingDriver none rfl⟩

/-- Claim C10: the `queryDatabase` of block 3 never throws or rejects.  It
returns exactly the value `execute` resolved to when `execute` succeeds, and
`null` when `execute` rejects or throws, and also `null` when the call of
`execute` cannot be made at all. -/
theorem queryDatabase_returns_result_or_null (d : Driver) (moduleDb : Option JsVal)
    (args : List JsVal) :
    (∃ v, (Block3.queryDatabase d moduleDb args).res = .ok v) ∧
    (∀ (h : Handle) (v : JsVal), moduleDb = some (.obj h) →
      d.execute (.obj h) Block3.sql = .resolved v →
      (Block3.queryDatabase d moduleDb args).res = .ok v) ∧
    (∀ (h : Handle) (e : JsVal), moduleDb = some (.obj h) →
      d.execute (.obj h) Block3.sql = .rejected e →
      (Block3.queryDatabase d moduleDb args).res = .ok .null) ∧
    ((∀ h : Handle, moduleDb ≠ some (.obj h)) →
      (Block3.queryDatabase d moduleDb args).res = .ok .null) := by
  refine ⟨?_, ?_, ?_, ?_⟩
  · cases moduleDb with
    | none =>
      simp [Block3.queryDatabase, tryCatch, readIdent, bind, Run.bind, throwJs, consoleLog,
        emit, Run.pure]
    | some v =>
      cases v with
      | obj h =>
        cases he : d.execute (.obj h) Block3.sql <;>
          simp [Block3.queryDatabase, tryCatch, readIdent, callExecute, bind, Run.bind,
            throwJs, consoleLog, emit, Run.pure, await, he]
      | _ =>
        simp [Block3.queryDatabase, tryCatch, readIdent, callExecute, bind, Run.bind,
          throwJs, consoleLog, emit, Run.pure]
  · intro h v hm he
    subst hm
    simp [Block3.queryDatabase, tryCatch, readIdent, callExecute, bind, Run.bind,
      throwJs, consoleLog, emit, Run.pure, await, he]
  · intro h e hm he
    subst hm
    simp [Block3.queryDatabase, tryCatch, readIdent, callExecute, bind, Run.bind,
      throwJs, consoleLog, emit, Run.pure, await, he]
  · intro hne
    cases moduleDb with
    | none =>
      simp [Block3.queryDatabase, tryCatch, readIdent, bind, Run.bind, throwJs, consoleLog,
        emit, Run.pure]
    | some v =>
      cases v with
      | obj h => exact absurd rfl (hne h)
      | _ =>
        simp [Block3.queryDatabase, tryCatch, readIdent, callExecute, bind, Run.bind,
          throwJs, consoleLog, emit, Run.pure]

/-- Witness for C10 with the module-level `db` bound to the connection of
block 1, for a succeeding and for a failing `execute`. -/
theorem queryDatabase_returns_result_or_null_witness :
    (Block3.queryDatabase okDriver (some (.obj blockOneDb)) []).res = .ok (.str "rows") ∧
    (Block3.queryDatabase failingQueryDriver (some (.obj blockOneDb)) []).res = .ok .null ∧
    (Block3.queryDatabase okDriver none []).res = .ok .null :=
  ⟨(queryDatabase_returns_result_or_null okDriver (some (.obj blockOneDb)) []).2.1
      blockOneDb (.str "rows") rfl rfl,
    (queryDatabase_returns_result_or_null failingQueryDriver (some (.obj blockOneDb))
      []).2.2.1 blockOneDb (.error "ER_NO_SUCH_TABLE") rfl rfl,
    (queryDatabase_returns_result_or_null okDriver none []).2.2.2
      (fun _ h => Option.noConfusion h)⟩

/-- Claim C8, evaluated: `connectToDatabase` returns the connection `conn7` and
`main` passes it in the call `queryDatabase(db)`, but `queryDatabase` declares no
parameter and reads the identifier `db` from the module scope.  With no
module-level `db` no `execute` call is made at all; with the module-level `db` of
block 1 in scope, `execute` is called on that object and not on `conn7`. -/
theorem main_does_not_query_the_returned_connection :
    (Block3.connectToDatabase okDriver).res = .ok (.obj conn7) ∧
    Event.invoke "queryDatabase" [.obj conn7] ∈ (Block3.main okDriver none).trace ∧
    (Block3.main okDriver none).trace.countP Event.isExecute = 0 ∧
    Event.execute (.obj conn7) Block3.sql ∉
      (Block3.main okDriver (some (.obj blockOneDb))).trace ∧
    Event.execute (.obj blockOneDb) Block3.sql ∈
      (Block3.main okDriver (some (.obj blockOneDb))).trace :=
  ⟨rfl, by decide, by decide, by decide, by decide⟩

/-! ## Block 4 -/

/-- Claim C2, evaluated: in every run the `queryDatabase` of block 4 calls
`mysql.createConnection` exactly once, as its first action, and never calls
`createPool` or `getConnection`: the connection it queries is not pooled. -/
theorem block4_connection_is_not_pooled (d : Driver) :
    (Block4.queryDatabase d).trace.head? = some (.createConnection Block4.config) ∧
    (Block4.queryDatabase d).trace.countP Event.isCreateConnection = 1 ∧
    (Block4.queryDatabase d).trace.countP Event.isCreatePool = 0 ∧
    (Block4.queryDatabase d).trace.countP Event.isGetConnection = 0 := by
  cases hc : d.createConnection Block4.config with
  | rejected e =>
    simp [Block4.queryDatabase, callCreateConnection, bind, Run.bind, emit, await, throwJs,
      hc, Event.isCreateConnection, Event.isCreatePool, Event.isGetConnection]
  | resolved v =>
    cases v with
    | obj h =>
      cases he : d.execute (.obj h) Block4.sql with
      | rejected e =>
        simp [Block4.queryDatabase, callCreateConnection, callExecute, bind, Run.bind, emit,
          await, throwJs, Run.pure, hc, he, Event.isCreateConnection, Event.isCreatePool,
          Event.isGetConnection]
      | resolved r =>
        cases hr : d.release (.obj h) <;>
          simp [Block4.queryDatabase, callCreateConnection, callExecute, callRelease, bind,
            Run.bind, emit, await, throwJs, Run.pure, consoleLog, hc, he, hr,
            Event.isCreateConnection, Event.isCreatePool, Event.isGetConnection]
    | _ =>
      simp [Block4.queryDatabase, callCreateConnection, callExecute, bind, Run.bind, emit,
        await, throwJs, Run.pure, hc, Event.isCreateConnection, Event.isCreatePool,
        Event.isGetConnection]

/-- Claim C3, evaluated: when `execute` resolves, the connection is released
exactly once; when `execute` rejects, `queryDatabase` of block 4 rejects with the
same error and `release` is never called on the connection it obtained. -/
theorem block4_connection_not_released_when_execute_rejects :
    (Block4.queryDatabase okDriver).trace.countP Event.isRelease = 1 ∧
    (Block4.queryDatabase failingQueryDriver).trace =
      [.createConnection Block4.config, .execute (.obj conn7) Block4.sql] ∧
    (Block4.queryDatabase failingQueryDriver).trace.countP Event.isRelease = 0 ∧
    (Block4.queryDatabase failingQueryDriver).res = .error (.error "ER_NO_SUCH_TABLE") :=
  ⟨by decide, rfl, by decide, rfl⟩

/-- Claim C6, evaluated: on success the results are logged, but when
`createConnection` or `execute` fails the `queryDatabase` of block 4 logs nothing
and its promise is rejected with the driver error. -/
theorem block4_failure_is_not_logged_and_propagates :
    Event.log "Results:" (.str "rows") ∈ (Block4.queryDatabase okDriver).trace ∧
    (Block4.queryDatabase refusingDriver).trace.countP Event.isLog = 0 ∧
    (Block4.queryDatabase refusingDriver).res = .error (.error "ECONNREFUSED") ∧
    (Block4.queryDatabase failingQueryDriver).trace.countP Event.isLog = 0 ∧
    (Block4.queryDatabase failingQueryDriver).res = .error (.error "ER_NO_SUCH_TABLE") :=
  ⟨by decide, by decide, rfl, by decide, rfl⟩

/-! ## The pool of block 2 -/

theorem takeHealthy_some_length (dead idle : List Nat) (c : Nat) (rest : List Nat)
    (h : takeHealthy dead idle = (some c, rest)) : rest.length + 1 ≤ idle.length := by
  induction idle with
  | nil => simp [takeHealthy] at h
  | cons x xs ih =>
    by_cases hx : x ∈ dead
    · simp only [takeHealthy, hx, if_true] at h
      have := ih h
      simp only [List.length_cons]
      omega
    · simp only [takeHealthy, hx, if_false, Prod.mk.injEq, Option.some.injEq] at h
      obtain ⟨_, rfl⟩ := h
      simp

theorem takeHealthy_none_length (dead idle : List Nat) (rest : List Nat)
    (h : takeHealthy dead idle = (none, rest)) : rest.length ≤ idle.length := by
  induction idle with
  | nil =>
    simp only [takeHealthy, Prod.mk.injEq, true_and] at h
    subst h
    simp
  | cons x xs ih =>
    by_cases hx : x ∈ dead
    · simp only [takeHealthy, hx, if_true] at h
      have := ih h
      simp only [List.length_cons]
      omega
    · simp [takeHealthy, hx] at h

theorem Pool.acquire_maxSize (p : Pool) (caller : Nat) (dead : List Nat) :
    (p.acquire caller dead).maxSize = p.maxSize := by
  unfold Pool.acquire
  split
  · rfl
  · split <;> rfl

theorem Pool.acquire_total (p : Pool) (caller : Nat) (dead : List Nat)
    (h : p.total ≤ p.maxSize) : (p.acquire caller dead).total ≤ p.maxSize := by
  unfold Pool.acquire
  split
  · next c rest hq =>
    have := takeHealthy_some_length dead p.idle c rest hq
    simp only [Pool.total, List.length_cons] at h ⊢
    omega
  · next rest hq =>
    have := takeHealthy_none_length dead p.idle rest hq
    split
    · simp only [Pool.total, List.length_cons] at h ⊢
      omega
    · simp only [Pool.total] at h ⊢
      omega

theorem Pool.openDone_maxSize (p : Pool) (caller : Nat) (ok : Bool) :
    (p.openDone caller ok).maxSize = p.maxSize := by
  unfold Pool.openDone
  split
  · split <;> rfl
  · rfl

theorem Pool.openDone_total (p : Pool) (caller : Nat) (ok : Bool)
    (h : p.total ≤ p.maxSize) : (p.openDone caller ok).total ≤ p.maxSize := by
  unfold Pool.openDone
  split
  · next hm =>
    have hlen := List.length_erase_of_mem hm
    have hpos := List.length_pos_of_mem hm
    split
    · simp only [Pool.total, List.length_cons, hlen] at h ⊢
      omega
    · simp only [Pool.total, hlen] at h ⊢
      omega
  · exact h

theorem Pool.release_maxSize (p : Pool) (conn : Nat) (broken : Bool) :
    (p.release conn broken).maxSize = p.maxSize := by
  unfold Pool.release
  split
  · split
    · split
      · split <;> rfl
      · rfl
    · split <;> rfl
  · rfl

theorem Pool.release_total (p : Pool) (conn : Nat) (broken : Bool)
    (h : p.total ≤ p.maxSize) : (p.release conn broken).total ≤ p.maxSize := by
  unfold Pool.release
  split
  · next hm =>
    have hlen := List.length_erase_of_mem hm
    have hpos := List.length_pos_of_mem hm
    split
    · split
      · split
        · next hlt =>
          simp only [Pool.total, List.length_cons, hlen] at h hlt ⊢
          omega
        · simp only [Pool.total, hlen] at h ⊢
          omega
      · simp only [Pool.total, hlen] at h ⊢
        omega
    · split
      · simpa [Pool.total] using h
      · simp only [Pool.total, List.length_cons, hlen] at h ⊢
        omega
  · exact h

theorem Pool.step_maxSize (p : Pool) (ev : PoolEvent) : (p.step ev).maxSize = p.maxSize := by
  cases ev with
  | acquire caller dead => exact Pool.acquire_maxSize p caller dead
  | openDone caller ok => exact Pool.openDone_maxSize p caller ok
  | release conn broken => exact Pool.release_maxSize p conn broken
  | timeout caller => rfl

theorem Pool.step_total (p : Pool) (ev : PoolEvent) (h : p.total ≤ p.maxSize) :
    (p.step ev).total ≤ (p.step ev).maxSize := by
  rw [Pool.step_maxSize]
  cases ev with
  | acquire caller dead => exact Pool.acquire_total p caller dead h
  | openDone caller ok => exact Pool.openDone_total p caller ok h
  | release conn broken => exact Pool.release_total p conn broken h
  | timeout caller => exact h

theorem Pool.run_invariant (evs : List PoolEvent) (p : Pool) (h : p.total ≤ p.maxSize) :
    (p.run evs).total ≤ (p.run evs).maxSize ∧ (p.run evs).maxSize = p.maxSize := by
  induction evs generalizing p with
  | nil => exact ⟨h, rfl⟩
  | cons ev rest ih =>
    have := ih (p.step ev) (Pool.step_total p ev h)
    simp only [Pool.run, List.foldl_cons] at this ⊢
    exact ⟨this.1, this.2.trans (Pool.step_maxSize p ev)⟩

/-- The bound is reached: after ten acquisitions whose `open` succeeds, ten
connections are in use, and an eleventh caller is queued. -/
theorem pool_limit_is_reached :
    ((Pool.create Block2.config).run
      ((List.range 10).flatMap fun i => [.acquire i [], .openDone i true])).inUse.length = 10 ∧
    ((Pool.create Block2.config).run
      (((List.range 10).flatMap fun i => [.acquire i [], .openDone i true]) ++
        [.acquire 10 []])).waiters = [10] := by
  decide

/-- Claim C4: for every sequence of acquire and release steps (with the
completions of `open` and the timeouts that acquire involves) on the pool created
in block 2, the number of distinct connections in use never exceeds the
configured limit, which is `connectionLimit = 10`. -/
theorem pool_in_use_never_exceeds_connectionLimit (evs : List PoolEvent) :
    Block2.config.connectionLimit = some 10 ∧
    ((Pool.create Block2.config).run evs).inUse.dedup.length ≤ 10 ∧
    ((Pool.create Block2.config).run evs).inUse.length ≤ 10 := by
  have hinv := Pool.run_invariant evs (Pool.create Block2.config)
    (by simp [Pool.create, Pool.total])
  have hmax : (Pool.create Block2.config).maxSize = 10 := rfl
  have hlen : ((Pool.create Block2.config).run evs).inUse.length ≤ 10 := by
    have h1 := hinv.1
    rw [hinv.2, hmax] at h1
    simp only [Pool.total] at h1
    omega
  refine ⟨rfl, ?_, hlen⟩
  exact le_trans (List.Sublist.length_le (List.dedup_sublist _)) hlen

end MySQLConnections
